import Mathlib

/-!
Verification development for the hefeng weather MCP server.

The repository contains three variants of the same server:
* `src/src/index.ts`      — server version "1.2.5" (namespace `V125` below);
* `src/unnamed/part_001`  — server version "1.3.3" (namespace `V133` below),
  the variant with Chinese-to-pinyin conversion;
* `src/unnamed/part_000`  — server version "1.6.2" (namespace `V162` below),
  the variant that sends the key as a header and accepts no Chinese input.

Pure data and the rendering code that is textually identical across the three
variants are defined once at top level; behaviour that differs between the
variants lives in the per-variant namespaces.  Network calls and the external
pinyin library are modelled as explicit inputs (oracles): every function below
is a pure function of the request data, the configuration and those oracles,
translated directly from the TypeScript source.
-/

/-- JavaScript `x || d` on an optional string field: `undefined` and the empty
string are falsy and select the default. -/
def jsOr (x : Option String) (d : String) : String :=
  match x with
  | some s => if s = "" then d else s
  | none => d

/-- JavaScript truthiness of a string value. -/
def truthy (s : String) : Bool := s ≠ ""

/-- JavaScript truthiness of a possibly-absent string field. -/
def truthyO (x : Option String) : Bool :=
  match x with
  | some s => s ≠ ""
  | none => false

/-- Models JavaScript `s.includes(pat)` (substring test). -/
def containsSub (s pat : String) : Bool :=
  s.toList.tails.any (fun t => pat.toList.isPrefixOf t)

/-- A single `{type: "text", text: ...}` content item of a tool result. -/
structure TextContent where
  type : String
  text : String
  deriving Repr, DecidableEq

/-- The result envelope returned by a tool call:
`{content: [{type: "text", text}]}`. -/
structure ToolResult where
  content : List TextContent
  deriving Repr, DecidableEq

/-- Every `return` in the handlers wraps exactly one text item. -/
def textResult (s : String) : ToolResult :=
  { content := [{ type := "text", text := s }] }

/-- `HeFengLocation` (identical interface in all three variants; the optional
trailing fields are never read by the handlers and are omitted). -/
structure HeFengLocation where
  name : String
  id : String
  lat : String
  lon : String
  adm2 : String
  adm1 : String
  country : String
  deriving Repr, DecidableEq

/-- `HeFengCityLookupResponse`: `code` plus optional candidate list. -/
structure HeFengCityLookupResponse where
  code : String
  location : Option (List HeFengLocation)
  deriving Repr, DecidableEq

/-- `HeFengNowObject` — the instant-conditions record. -/
structure HeFengNowObject where
  obsTime : String
  temp : String
  feelsLike : String
  text : String
  windDir : String
  windScale : String
  humidity : String
  precip : String
  pressure : String
  vis : String
  cloud : Option String := none
  dew : Option String := none
  deriving Repr, DecidableEq

/-- `HeFengHourlyObject` — one hourly forecast record. -/
structure HeFengHourlyObject where
  fxTime : String
  temp : String
  text : String
  windDir : String
  windScale : String
  humidity : String
  pop : Option String := none
  precip : Option String := none
  pressure : Option String := none
  cloud : Option String := none
  dew : Option String := none
  deriving Repr, DecidableEq

/-- `HeFengDailyObject` — one daily forecast record. -/
structure HeFengDailyObject where
  fxDate : String
  tempMax : String
  tempMin : String
  textDay : String
  textNight : String
  windDirDay : String
  windScaleDay : String
  windDirNight : String
  windScaleNight : String
  humidity : String
  precip : String
  pressure : String
  vis : String
  uvIndex : String
  sunrise : Option String := none
  sunset : Option String := none
  deriving Repr, DecidableEq

/-- The body of a weather response as the handlers see it: a `code` plus the
three payload fields whose presence is probed with `in` / truthiness checks
(`now?`, `hourly?`, `daily?`).  `refer` is never read and is omitted. -/
structure WeatherData where
  code : String
  now : Option HeFengNowObject := none
  hourly : Option (List HeFengHourlyObject) := none
  daily : Option (List HeFengDailyObject) := none
  deriving Repr, DecidableEq

/-- The `days` argument: `z.enum(['now','24h','72h','168h','3d','7d','10d','15d','30d'])`. -/
inductive Days where
  | now | h24 | h72 | h168 | d3 | d7 | d10 | d15 | d30
  deriving Repr, DecidableEq

/-- The string the selector interpolates to (`${days}` in the source). -/
def Days.toStr : Days → String
  | .now => "now"
  | .h24 => "24h"
  | .h72 => "72h"
  | .h168 => "168h"
  | .d3 => "3d"
  | .d7 => "7d"
  | .d10 => "10d"
  | .d15 => "15d"
  | .d30 => "30d"

/-- `['24h', '72h', '168h'].includes(days)` as used by all three handlers. -/
def isHourlySelector (d : Days) : Bool :=
  d = .h24 ∨ d = .h72 ∨ d = .h168

/-- `weatherPath` selection (identical three-way branch in all variants). -/
def weatherPath (days : Days) : String :=
  if days = .now then "/v7/weather/now"
  else if isHourlySelector days then "/v7/weather/" ++ days.toStr
  else "/v7/weather/" ++ days.toStr

/-- The forecast request each handler issues: `weatherPath` plus the
`{ location: effectiveLocation }` query record. -/
def weatherRequest (days : Days) (effectiveLocation : String) :
    String × List (String × String) :=
  (weatherPath days, [("location", effectiveLocation)])

/-- The instant-conditions text block (textually identical in all variants). -/
def formatNow (displayLocation : String) (now : HeFengNowObject) : String :=
  "地点: " ++ displayLocation ++ "\n" ++
  "观测时间: " ++ now.obsTime ++ "\n" ++
  "天气: " ++ now.text ++ "\n" ++
  "温度: " ++ now.temp ++ "°C\n" ++
  "体感温度: " ++ now.feelsLike ++ "°C\n" ++
  "风向: " ++ now.windDir ++ "\n" ++
  "风力: " ++ now.windScale ++ "级\n" ++
  "相对湿度: " ++ now.humidity ++ "%\n" ++
  "当前小时累计降水量: " ++ now.precip ++ "mm\n" ++
  "大气压强: " ++ now.pressure ++ "hPa\n" ++
  "能见度: " ++ now.vis ++ "公里"

/-- One hourly record block (the `hourly.map(hour => ...)` body, identical in
all variants; `hour.pop || 'N/A'` is `jsOr`). -/
def formatHour (hour : HeFengHourlyObject) : String :=
  "时间: " ++ hour.fxTime ++ "\n" ++
  "  天气: " ++ hour.text ++ ", 温度: " ++ hour.temp ++ "°C\n" ++
  "  湿度: " ++ hour.humidity ++ "%, 降水概率: " ++ jsOr hour.pop "N/A" ++ "%\n" ++
  "  风向: " ++ hour.windDir ++ " " ++ hour.windScale ++ "级\n" ++
  "------------------------"

/-- Header plus `join('\n')` of the hourly blocks. -/
def formatHourly (displayLocation : String) (days : Days)
    (hourly : List HeFengHourlyObject) : String :=
  "地点: " ++ displayLocation ++ "\n" ++ days.toStr ++ "小时预报:\n" ++
  String.intercalate "\n" (hourly.map formatHour)

/-- One daily record block (`daily.map(day => ...)` body, identical in all
variants; `day.sunrise || 'N/A'` and `day.sunset || 'N/A'` are `jsOr`). -/
def formatDay (day : HeFengDailyObject) : String :=
  "日期: " ++ day.fxDate ++ " (日出: " ++ jsOr day.sunrise "N/A" ++
    ", 日落: " ++ jsOr day.sunset "N/A" ++ ")\n" ++
  "  白天天气: " ++ day.textDay ++ ", 夜间天气: " ++ day.textNight ++ "\n" ++
  "  最高温度: " ++ day.tempMax ++ "°C, 最低温度: " ++ day.tempMin ++ "°C\n" ++
  "  相对湿度: " ++ day.humidity ++ "%, 降水量: " ++ day.precip ++ "mm\n" ++
  "  白天风向: " ++ day.windDirDay ++ " " ++ day.windScaleDay ++ "级\n" ++
  "  夜间风向: " ++ day.windDirNight ++ " " ++ day.windScaleNight ++ "级\n" ++
  "  紫外线指数: " ++ day.uvIndex ++ "\n" ++
  "------------------------"

/-- Header plus `join('\n')` of the daily blocks. -/
def formatDaily (displayLocation : String) (days : Days)
    (daily : List HeFengDailyObject) : String :=
  "地点: " ++ displayLocation ++ "\n" ++ days.toStr ++ "预报:\n" ++
  String.intercalate "\n" (daily.map formatDay)

/-- The five-line `get_location_id` success block (identical in all
variants): name; administrative hierarchy with `'N/A'` for missing levels;
id; latitude; longitude. -/
def formatLocationDetails (loc : HeFengLocation) : String :=
  "城市: " ++ loc.name ++ "\n" ++
  "所属区域: " ++ jsOr (some loc.adm2) "N/A" ++ ", " ++
    jsOr (some loc.adm1) "N/A" ++ ", " ++ jsOr (some loc.country) "N/A" ++ "\n" ++
  "Location ID: " ++ loc.id ++ "\n" ++
  "纬度: " ++ loc.lat ++ "\n" ++
  "经度: " ++ loc.lon

/-- What `makeHeFengRequest` returns (besides the raw data `T`): the ad-hoc
error objects built in its branches.  The `error` and `message` fields are
kept separate because different variants populate different ones. -/
inductive ReqResult (T : Type) where
  | data (d : T)
  | errObj (code : String) (error : Option String) (message : Option String)
  deriving Repr, DecidableEq

/-- The code the result carries (`result.code` in the handlers). -/
def ReqResult.codeOf {T : Type} (getCode : T → String) : ReqResult T → String
  | .data d => getCode d
  | .errObj c _ _ => c

/-- The two `JSON.parse` views the request helper takes of a non-ok HTTP
response body: the `{error:{status,title,detail}}` wrapper view and the
`{code,message}` view, or a parse failure. -/
structure ErrorBodyView where
  parseFailed : Bool
  hasErrorField : Bool := false
  errStatus : Option String := none
  errTitle : Option String := none
  errDetail : Option String := none
  code : Option String := none
  message : Option String := none
  deriving Repr, DecidableEq

/-- The outcome of the single `fetch` call, as an oracle: a parsed JSON body
on HTTP success, a non-ok status with its raw body and parsed views, or a
thrown transport error. -/
inductive FetchOutcome (T : Type) where
  | jsonOk (data : T)
  | httpError (status : String) (body : String) (view : ErrorBodyView)
  | thrown (msg : String)
  deriving Repr, DecidableEq

/-- `makeHeFengRequest` of variants 1.3.3 (`part_001`) and 1.6.2
(`part_000`), whose control flow is identical (only the logging and the way
the key is attached differ).  The second component counts how many times
`fetch` was invoked.  The `throw new Error` of the non-ok branch is caught by
the function's own `catch`, whose `includes("HeFeng API Error")` test and
`(error as any).code || String((error as any).status)` fallback (both
`undefined` on a plain `Error`, so `String(undefined) = "undefined"`) are
reproduced below. -/
def makeHeFengRequestV2 {T : Type} (getCode : T → String)
    (apiKey baseUrl : String) (fetch : FetchOutcome T) : ReqResult T × Nat :=
  if apiKey = "" then
    (.errObj "500" (some "API Key not configured") none, 0)
  else if baseUrl = "" then
    (.errObj "500" (some "API Base URL not configured") none, 0)
  else
    match fetch with
    | .jsonOk data =>
        if truthy (getCode data) ∧ getCode data ≠ "200" then
          (.errObj (getCode data)
            (some ("HeFeng API business error. Code: " ++ getCode data)) none, 1)
        else (.data data, 1)
    | .httpError status body view =>
        let httpMsg := "HTTP error! status: " ++ status ++ ", body: " ++ body
        let caught : ReqResult T :=
          if containsSub httpMsg "HeFeng API Error" then
            .errObj "undefined" (some httpMsg) none
          else .errObj "FETCH_ERROR" (some httpMsg) none
        if view.parseFailed then (caught, 1)
        else if view.hasErrorField ∧ (truthyO view.errDetail ∨ truthyO view.errTitle) then
          (.errObj (jsOr view.errStatus status)
            (some ("HeFeng API Error: " ++ jsOr view.errTitle "Unknown Error" ++
              ". Detail: " ++ jsOr view.errDetail "No detail provided.")) none, 1)
        else
          match view.code with
          | some c =>
              if c ≠ "" then
                (.errObj c (some ("HeFeng API Error (Code: " ++ c ++ "): " ++
                  jsOr view.message body)) none, 1)
              else (caught, 1)
          | none => (caught, 1)
    | .thrown msg =>
        if containsSub msg "HeFeng API Error" then
          (.errObj "undefined" (some msg) none, 1)
        else (.errObj "FETCH_ERROR" (some msg) none, 1)

/-- `makeHeFengRequest` of variant 1.2.5 (`src/src/index.ts`): a success JSON
body is returned unchanged even when its internal `code` is not `"200"`
(only logged); the non-ok branch knows only the `{code,message}` body shape;
the `catch` returns `{code, message}` (a plain `Error` has no `.code`, so the
first branch of its `catch` never fires for the internally thrown HTTP
error). -/
def makeHeFengRequestV125 {T : Type}
    (apiKey baseUrl : String) (fetch : FetchOutcome T) : ReqResult T × Nat :=
  if apiKey = "" then
    (.errObj "500" (some "API Key not configured") none, 0)
  else if baseUrl = "" then
    (.errObj "500" (some "API Base URL not configured") none, 0)
  else
    match fetch with
    | .jsonOk data => (.data data, 1)
    | .httpError status body view =>
        let httpMsg := "HTTP error! status: " ++ status ++ ", body: " ++ body
        if view.parseFailed then (.errObj "FETCH_ERROR" none (some httpMsg), 1)
        else
          match view.code with
          | some c =>
              if c ≠ "" then
                (.errObj c (some ("HeFeng API Error: " ++ jsOr view.message body))
                  none, 1)
              else (.errObj "FETCH_ERROR" none (some httpMsg), 1)
          | none => (.errObj "FETCH_ERROR" none (some httpMsg), 1)
    | .thrown msg => (.errObj "FETCH_ERROR" none (some msg), 1)

/-- Result of `Schema.parse(args)`: either the parsed arguments or a
`z.ZodError` carrying `(path, message)` issues. -/
inductive ParseResult (α : Type) where
  | ok (a : α)
  | zodError (errs : List (List String × String))
  deriving Repr, DecidableEq

/-- Whether the parse raised a `ZodError`. -/
def ParseResult.isZodError {α : Type} : ParseResult α → Bool
  | .ok _ => false
  | .zodError _ => true

/-- The two kinds of exception the `try` body of a handler can raise:
a `ZodError` from `Schema.parse`, or the `Unknown tool` error. -/
inductive Thrown where
  | zod (errs : List (List String × String))
  | unknownTool (name : String)
  deriving Repr, DecidableEq

/-- `errors.map(e => e.path.join(".") + ": " + e.message)` joined with `sep`. -/
def zodIssuesText (sep : String) (errs : List (List String × String)) : String :=
  String.intercalate sep
    (errs.map (fun e => String.intercalate "." e.1 ++ ": " ++ e.2))

/-- Process-wide configuration set at startup and read-only afterwards. -/
structure Config where
  apiKey : String
  weatherUrl : String
  geoUrl : String
  deriving Repr, DecidableEq

/-- The `{name, arguments}` of a call-tool request, with each schema parse
given as an oracle (only the schema matching the tool name is consulted). -/
structure HandlerInput where
  toolName : String
  locationIdArgs : ParseResult String
  weatherArgs : ParseResult (String × Days)
  deriving Repr, DecidableEq

/-- `containsChinese` (variant 1.3.3): `/[一-龥]/.test(text)`. -/
def containsChinese (text : String) : Bool :=
  text.toList.any (fun c => 0x4e00 ≤ c.toNat ∧ c.toNat ≤ 0x9fa5)

/-- Models JavaScript `s.toLowerCase()`: the per-character ASCII case
mapping (`Char.toLower`), applied to every character. -/
def jsToLowerCase (s : String) : String :=
  ⟨s.data.map Char.toLower⟩

/-- `convertToPinyin` (variant 1.3.3): the external `pinyin` library call
`pinyin(chineseText, {style: STYLE_NORMAL})` is an oracle supplying the
`string[][]` of readings per unit; the function then takes
`.map(arr => arr[0]).join('').toLowerCase()`.  (`join` renders an
`undefined` first element of an empty group as the empty string.) -/
def convertToPinyin (pinyinArray : List (List String)) : String :=
  jsToLowerCase (String.join (pinyinArray.map (fun arr => arr.headD "")))

/-- `fetchLocationDetailsByName` (variant 1.3.3; `fetchLocationDetails` of
variant 1.6.2 is the same logic): geocode the token and return the first
candidate, or `null` on a configuration error, an error result, a non-200
lookup code, or an empty/missing candidate list. -/
def fetchLocationDetailsByName (cfg : Config) (cityNameOrPinyin : String)
    (geoFetch : FetchOutcome HeFengCityLookupResponse) : Option HeFengLocation :=
  if cfg.geoUrl = "" then none
  else
    match (makeHeFengRequestV2 HeFengCityLookupResponse.code
        cfg.apiKey cfg.geoUrl geoFetch).1 with
    | .errObj _ err _ =>
        -- the `'error' in response` branch; an error object without the
        -- `error` field would still carry no `location` list, so both
        -- sub-paths return null
        if err.isSome then none else none
    | .data d =>
        if d.code = "200" then
          match d.location with
          | some (l :: _) => some l
          | _ => none
        else none

/-- The weather shape-branching of variants 1.3.3 and 1.6.2 (textually
identical): the selector chooses the branch, each branch requires its own
payload field and renders the unavailable-data message otherwise. -/
def formatWeatherBySelectorV2 (displayLocation : String) (days : Days)
    (wd : WeatherData) : ToolResult :=
  if days = .now then
    match wd.now with
    | some n => textResult (formatNow displayLocation n)
    | none =>
        textResult ("获取 " ++ displayLocation ++
          " 的实时天气数据时，数据结构不完整或无效。 (Code: " ++ wd.code ++ ")")
  else if isHourlySelector days then
    match wd.hourly with
    | some hs =>
        if hs.length > 0 then textResult (formatHourly displayLocation days hs)
        else
          textResult ("无法获取 " ++ displayLocation ++
            " 的逐小时预报，数据不完整或该地区无此项数据。 (Code: " ++ wd.code ++ ")")
    | none =>
        textResult ("无法获取 " ++ displayLocation ++
          " 的逐小时预报，数据不完整或该地区无此项数据。 (Code: " ++ wd.code ++ ")")
  else
    match wd.daily with
    | some ds =>
        if ds.length > 0 then textResult (formatDaily displayLocation days ds)
        else
          textResult ("无法获取 " ++ displayLocation ++ " 的 " ++ days.toStr ++
            " 天气预报，数据不完整或该地区无此项数据。 (Code: " ++ wd.code ++ ")")
    | none =>
        textResult ("无法获取 " ++ displayLocation ++ " 的 " ++ days.toStr ++
          " 天气预报，数据不完整或该地区无此项数据。 (Code: " ++ wd.code ++ ")")

namespace V133

/-- The effective location of the 1.3.3 weather flow: a Chinese token is
converted to pinyin and geocoded; a usable candidate contributes its id,
otherwise the pinyin token itself is used; non-Chinese tokens pass through. -/
def weatherQueryLocation (rawLocationInput : String)
    (pinyinArr : List (List String)) (lookup : Option HeFengLocation) : String :=
  if containsChinese rawLocationInput then
    let pinyinName := convertToPinyin pinyinArr
    match lookup with
    | some loc => if truthy loc.id then loc.id else pinyinName
    | none => pinyinName
  else rawLocationInput

/-- The display name of the 1.3.3 weather flow. -/
def weatherDisplayLocation (rawLocationInput : String)
    (pinyinArr : List (List String)) : String :=
  if containsChinese rawLocationInput then
    rawLocationInput ++ " (" ++ convertToPinyin pinyinArr ++ ")"
  else rawLocationInput

/-- The `get_location_id` flow of variant 1.3.3 after a successful argument
parse: every exit is a text envelope (the dedicated lookup tool reports
failure with a single "not found" line and performs no fallback). -/
def locationIdFlowResult (cfg : Config) (city_name : String)
    (geoFetch : FetchOutcome HeFengCityLookupResponse) : ToolResult :=
  if cfg.geoUrl = "" then
    textResult "错误：地理位置API基础URL未配置。请管理员使用 --apiUrl 配置。"
  else
    match fetchLocationDetailsByName cfg city_name geoFetch with
    | none =>
        textResult ("无法找到城市 \"" ++ city_name ++
          "\" 的位置信息。请检查输入、API配置或查看服务器日志获取更多详情。")
    | some loc => textResult (formatLocationDetails loc)

/-- The `get-weather` flow of variant 1.3.3 after a successful argument
parse: pinyin conversion and lookup for Chinese input, dispatch, failure
classification, shape-directed rendering.  Every exit is a text envelope. -/
def weatherFlowResult (cfg : Config) (rawLocationInput : String) (days : Days)
    (geoFetch : FetchOutcome HeFengCityLookupResponse)
    (weatherFetch : FetchOutcome WeatherData)
    (pinyinArr : List (List String)) : ToolResult :=
  let attemptPinyin := containsChinese rawLocationInput
  let displayLocation := weatherDisplayLocation rawLocationInput pinyinArr
  -- the effective location — `weatherQueryLocation rawLocationInput
  -- pinyinArr (fetchLocationDetailsByName cfg (convertToPinyin pinyinArr)
  -- geoFetch)` for Chinese input — only shapes the outgoing request, which
  -- the `weatherFetch` oracle answers; it is exposed as
  -- `issuedWeatherRequest` below
  let weatherData :=
    (makeHeFengRequestV2 WeatherData.code cfg.apiKey cfg.weatherUrl
      weatherFetch).1
  let failed : Bool :=
    match weatherData with
    | .data wd => truthy wd.code ∧ wd.code ≠ "200"
    | .errObj c err _ => err.isSome ∨ (truthy c ∧ c ≠ "200")
  if failed then
    let apiErrorCode :=
      jsOr (some (ReqResult.codeOf WeatherData.code weatherData)) "N/A"
    let rawErrorMessage :=
      match weatherData with
      | .data _ => "未能获取数据，请检查地点名称或API配置。"
      | .errObj _ err msg =>
          jsOr err (jsOr msg "未能获取数据，请检查地点名称或API配置。")
    let note :=
      if attemptPinyin ∧ apiErrorCode ≠ "200" then
        " (已尝试将 \"" ++ rawLocationInput ++ "\" 转为拼音 \"" ++
          convertToPinyin pinyinArr ++ "\" 进行查询)"
      else ""
    textResult ("无法获取 " ++ displayLocation ++
      " 的天气数据 (API Code/Status: " ++ apiErrorCode ++ "). " ++
      rawErrorMessage ++ note)
  else
    match weatherData with
    | .data wd => formatWeatherBySelectorV2 displayLocation days wd
    | .errObj c _ _ =>
        -- a non-data object passing the check is probed for payload
        -- fields it does not have
        formatWeatherBySelectorV2 displayLocation days { code := c }

/-- The body of the 1.3.3 `try` block: the value returned, or the exception
that escapes it.  The weather base-URL check precedes the weather argument
parse; the lookup-tool argument parse precedes its geo base-URL check. -/
def tryBody (cfg : Config) (inp : HandlerInput)
    (geoFetch : FetchOutcome HeFengCityLookupResponse)
    (weatherFetch : FetchOutcome WeatherData)
    (pinyinArr : List (List String)) : Except Thrown ToolResult :=
  if inp.toolName = "get_location_id" then
    match inp.locationIdArgs with
    | .zodError errs => .error (.zod errs)
    | .ok city_name => .ok (locationIdFlowResult cfg city_name geoFetch)
  else if inp.toolName = "get-weather" then
    if cfg.weatherUrl = "" then
      .ok (textResult "错误：天气API基础URL未配置。请管理员使用 --apiUrl 配置。")
    else
      match inp.weatherArgs with
      | .zodError errs => .error (.zod errs)
      | .ok (rawLocationInput, days) =>
          .ok (weatherFlowResult cfg rawLocationInput days geoFetch
            weatherFetch pinyinArr)
  else .error (.unknownTool inp.toolName)

/-- The forecast request the 1.3.3 weather flow hands to
`makeHeFengRequest`, when it reaches the dispatch step. -/
def issuedWeatherRequest (cfg : Config) (inp : HandlerInput)
    (geoFetch : FetchOutcome HeFengCityLookupResponse)
    (pinyinArr : List (List String)) :
    Option (String × List (String × String)) :=
  if inp.toolName = "get-weather" ∧ cfg.weatherUrl ≠ "" then
    match inp.weatherArgs with
    | .ok (rawLocationInput, days) =>
        let lookup :=
          if containsChinese rawLocationInput then
            fetchLocationDetailsByName cfg (convertToPinyin pinyinArr) geoFetch
          else none
        some (weatherRequest days
          (weatherQueryLocation rawLocationInput pinyinArr lookup))
    | .zodError _ => none
  else none

/-- The 1.3.3 call-tool handler: the `catch` converts every exception to a
text envelope, except a `ZodError`, which it rethrows (`Except.error` models
the hard protocol fault). -/
def handleCallTool (cfg : Config) (inp : HandlerInput)
    (geoFetch : FetchOutcome HeFengCityLookupResponse)
    (weatherFetch : FetchOutcome WeatherData)
    (pinyinArr : List (List String)) : Except String ToolResult :=
  match tryBody cfg inp geoFetch weatherFetch pinyinArr with
  | .ok r => .ok r
  | .error (.zod errs) => .error ("输入参数无效: " ++ zodIssuesText ", " errs)
  | .error (.unknownTool n) =>
      .ok (textResult ("执行工具 \"" ++ n ++ "\" 时发生内部错误: Unknown tool: " ++ n))

end V133

namespace V162

/-- `fetchLocationDetails` of variant 1.6.2 — same logic as 1.3.3's
`fetchLocationDetailsByName` (only the geo path and log text differ). -/
def fetchLocationDetails (cfg : Config) (inputLocation : String)
    (geoFetch : FetchOutcome HeFengCityLookupResponse) : Option HeFengLocation :=
  fetchLocationDetailsByName cfg inputLocation geoFetch

/-- The `get_location_id` flow of variant 1.6.2 after a successful parse. -/
def locationIdFlowResult (cfg : Config) (city_name : String)
    (geoFetch : FetchOutcome HeFengCityLookupResponse) : ToolResult :=
  if cfg.geoUrl = "" then
    textResult "错误：地理位置API基础URL未配置。请管理员使用 --apiUrl 配置。"
  else
    match fetchLocationDetails cfg city_name geoFetch with
    | none =>
        textResult ("无法找到 \"" ++ city_name ++
          "\" 的位置信息。请确保输入为拼音/英文城市名、有效的LocationID、Adcode或经纬度坐标，并检查API配置。")
    | some loc => textResult (formatLocationDetails loc)

/-- The `get_weather` flow of variant 1.6.2 after a successful parse: the
raw location is used directly (no pinyin step). -/
def weatherFlowResult (cfg : Config) (rawLocationInput : String) (days : Days)
    (weatherFetch : FetchOutcome WeatherData) : ToolResult :=
  let displayLocation := rawLocationInput
  let weatherData :=
    (makeHeFengRequestV2 WeatherData.code cfg.apiKey cfg.weatherUrl
      weatherFetch).1
  let failed : Bool :=
    match weatherData with
    | .data wd => truthy wd.code ∧ wd.code ≠ "200"
    | .errObj c err _ => err.isSome ∨ (truthy c ∧ c ≠ "200")
  if failed then
    let apiErrorCode :=
      jsOr (some (ReqResult.codeOf WeatherData.code weatherData)) "N/A"
    let rawErrorMessage :=
      match weatherData with
      | .data _ => "未能获取数据，请检查地点名称或API配置。"
      | .errObj _ err msg =>
          jsOr err (jsOr msg "未能获取数据，请检查地点名称或API配置。")
    let note := " (输入 \"" ++ rawLocationInput ++ "\" 被直接使用查询)"
    textResult ("无法获取 " ++ displayLocation ++
      " 的天气数据 (API Code/Status: " ++ apiErrorCode ++ "). " ++
      rawErrorMessage ++ note)
  else
    match weatherData with
    | .data wd => formatWeatherBySelectorV2 displayLocation days wd
    | .errObj c _ _ =>
        formatWeatherBySelectorV2 displayLocation days { code := c }

/-- The body of the 1.6.2 `try` block.  The tool names are `get_location_id`
and `get_weather`. -/
def tryBody (cfg : Config) (inp : HandlerInput)
    (geoFetch : FetchOutcome HeFengCityLookupResponse)
    (weatherFetch : FetchOutcome WeatherData) : Except Thrown ToolResult :=
  if inp.toolName = "get_location_id" then
    match inp.locationIdArgs with
    | .zodError errs => .error (.zod errs)
    | .ok city_name => .ok (locationIdFlowResult cfg city_name geoFetch)
  else if inp.toolName = "get_weather" then
    if cfg.weatherUrl = "" then
      .ok (textResult "错误：天气API基础URL未配置。请管理员使用 --apiUrl 配置。")
    else
      match inp.weatherArgs with
      | .zodError errs => .error (.zod errs)
      | .ok (rawLocationInput, days) =>
          .ok (weatherFlowResult cfg rawLocationInput days weatherFetch)
  else .error (.unknownTool inp.toolName)

/-- The 1.6.2 call-tool handler: its `catch` converts a `ZodError` to a
validation text envelope (joined with `"; "`) and every other exception —
including the `Unknown tool` error — to an internal-error text envelope.
Nothing is rethrown, so this variant never raises a hard fault. -/
def handleCallTool (cfg : Config) (inp : HandlerInput)
    (geoFetch : FetchOutcome HeFengCityLookupResponse)
    (weatherFetch : FetchOutcome WeatherData) : Except String ToolResult :=
  match tryBody cfg inp geoFetch weatherFetch with
  | .ok r => .ok r
  | .error (.zod errs) =>
      .ok (textResult ("输入参数无效: " ++ zodIssuesText "; " errs))
  | .error (.unknownTool n) =>
      .ok (textResult ("执行工具 \"" ++ n ++ "\" 时发生内部错误: Unknown tool: " ++ n))

end V162

namespace V125

/-- The weather shape-branching of variant 1.2.5 (`src/src/index.ts`): an
`else if` chain in which only the `now` and hourly branches test the
selector — the `daily` branch fires for any selector whenever the earlier
branches fail and a `daily` field is present. -/
def formatWeatherBySelector (displayLocation : String) (days : Days)
    (wd : WeatherData) : ToolResult :=
  let malformed :=
    textResult ("获取 " ++ displayLocation ++
      " 的天气数据格式不正确或不完整。 (Code: " ++ wd.code ++ ")")
  let dailyBranch :=
    match wd.daily with
    | some ds =>
        if ds.length = 0 then
          textResult ("无法获取 " ++ displayLocation ++ " 的 " ++ days.toStr ++
            " 天气预报，或该地区无此项数据。")
        else textResult (formatDaily displayLocation days ds)
    | none => malformed
  let hourlyBranch :=
    if isHourlySelector days then
      match wd.hourly with
      | some hs =>
          if hs.length = 0 then
            textResult ("无法获取 " ++ displayLocation ++
              " 的逐小时预报，或该地区无此项数据。")
          else textResult (formatHourly displayLocation days hs)
      | none => dailyBranch
    else dailyBranch
  if days = .now then
    match wd.now with
    | some n => textResult (formatNow displayLocation n)
    | none => hourlyBranch
  else hourlyBranch

/-- The tail of the 1.2.5 weather flow, from the
`!weatherData || weatherData.code !== "200"` check onwards. -/
def weatherFlowResult (displayLocation : String) (days : Days)
    (req : ReqResult WeatherData) : ToolResult :=
  let code := ReqResult.codeOf WeatherData.code req
  if code ≠ "200" then
    let apiErrorCode := jsOr (some code) "N/A"
    let errorMessage :=
      match req with
      | .data _ => "未能获取数据，请检查地点名称或API配置。"
      | .errObj _ err msg => jsOr msg (jsOr err "未能获取数据，请检查地点名称或API配置。")
    textResult ("无法获取 " ++ displayLocation ++ " 的天气数据 (API Code: " ++
      apiErrorCode ++ "). " ++ errorMessage)
  else
    match req with
    | .data wd => formatWeatherBySelector displayLocation days wd
    | .errObj c _ _ => formatWeatherBySelector displayLocation days { code := c }

end V125

/-- Models JavaScript `s.split(sep)` for a single-character separator
(structural recursion over the character list; a trailing separator yields a
trailing empty field, as in JavaScript). -/
def splitChar (sep : Char) : List Char → List (List Char)
  | [] => [[]]
  | c :: rest =>
      let r := splitChar sep rest
      if c = sep then [] :: r
      else
        match r with
        | [] => [[c]]
        | h :: t => (c :: h) :: t

/-- The startup API-key logging of variants 1.2.5 and 1.3.3 (identical): the
first argument starting with `--apiKey=` is split on `=`, and if the value
(`split('=')[1]`) is truthy the log line interpolates the key itself. -/
def startupApiKeyLogsV125 (argv : List String) : List String :=
  match argv.find? (fun arg => "--apiKey=".data.isPrefixOf arg.data) with
  | some arg =>
      let apiKey := ((splitChar '=' arg.data).map String.mk).getD 1 ""
      if truthy apiKey then ["使用命令行参数中的API密钥: " ++ apiKey] else []
  | none => []

/-- The startup API-key logging of variant 1.6.2: the same parse, but the
log line deliberately omits the key value ("Key value itself is not logged
for security"). -/
def startupApiKeyLogsV162 (argv : List String) : List String :=
  match argv.find? (fun arg => "--apiKey=".data.isPrefixOf arg.data) with
  | some arg =>
      let apiKey := ((splitChar '=' arg.data).map String.mk).getD 1 ""
      if truthy apiKey then ["使用命令行参数中的API密钥"] else []
  | none => []

/-- Number of occurrences of a character in a string. -/
def countChar (s : String) (c : Char) : Nat := s.data.count c

/-- Whether the handler raised a hard protocol fault (an exception that
escaped to the transport) rather than returning a result envelope. -/
def isHardFault {ε α : Type} : Except ε α → Bool
  | .error _ => true
  | .ok _ => false

/-- The endpoint mapping exactly as the specification words it
(`instant → .../weather/now`; `24h/72h/168h → .../weather/{selector}`;
`3d/7d/10d/15d/30d → .../weather/{selector}`) — the spec-side table the
code-side `weatherRequest` is compared against. -/
def specEndpointPath : Days → String
  | .now => "/v7/weather/now"
  | .h24 => "/v7/weather/24h"
  | .h72 => "/v7/weather/72h"
  | .h168 => "/v7/weather/168h"
  | .d3 => "/v7/weather/3d"
  | .d7 => "/v7/weather/7d"
  | .d10 => "/v7/weather/10d"
  | .d15 => "/v7/weather/15d"
  | .d30 => "/v7/weather/30d"

/-- Erases from a response body every payload field other than the one the
selector requests.  Invariance of the formatter under this erasure states
that the output renders only the selector-matching payload shape. -/
def restrictToSelector (days : Days) (wd : WeatherData) : WeatherData :=
  if days = .now then { code := wd.code, now := wd.now }
  else if isHourlySelector days then { code := wd.code, hourly := wd.hourly }
  else { code := wd.code, daily := wd.daily }

/-- The instant-conditions record of the specification's instant-success
scenario (§8 item 6). -/
def scenarioNowRecord : HeFengNowObject :=
  { obsTime := "2024-01-01T08:00+08:00", temp := "5", feelsLike := "2",
    text := "Cloudy", windDir := "N", windScale := "3", humidity := "40",
    precip := "0.0", pressure := "1020", vis := "10" }

/-- A concrete daily record used in closed instances. -/
def specimenDay : HeFengDailyObject :=
  { fxDate := "2024-01-01", tempMax := "10", tempMin := "0",
    textDay := "晴", textNight := "阴", windDirDay := "北风",
    windScaleDay := "3", windDirNight := "南风", windScaleNight := "2",
    humidity := "40", precip := "0.0", pressure := "1020", vis := "10",
    uvIndex := "5", sunrise := some "07:30", sunset := some "17:00" }

/-- A concrete hourly record (with `pop` absent) used in closed instances. -/
def specimenHour : HeFengHourlyObject :=
  { fxTime := "2024-01-01T09:00+08:00", temp := "5", text := "Cloudy",
    windDir := "N", windScale := "3", humidity := "40" }

/-- A concrete location record used in closed instances. -/
def specimenLocation : HeFengLocation :=
  { name := "北京", id := "101010100", lat := "39.90499", lon := "116.40529",
    adm2 := "北京", adm1 := "北京市", country := "中国" }

namespace V125

/-- `fetchLocationDetailsByName` of variant 1.2.5: first candidate on a
code-200 lookup with a non-empty list, `null` otherwise. -/
def fetchLocationDetailsByName (cfg : Config) (cityName : String)
    (geoFetch : FetchOutcome HeFengCityLookupResponse) : Option HeFengLocation :=
  if cfg.geoUrl = "" then none
  else
    match (makeHeFengRequestV125 cfg.apiKey cfg.geoUrl geoFetch).1 with
    | .data d =>
        if d.code = "200" then
          match d.location with
          | some (l :: _) => some l
          | _ => none
        else none
    | .errObj _ _ _ => none

/-- The `get_location_id` flow of variant 1.2.5 after a successful parse. -/
def locationIdFlowResult (cfg : Config) (city_name : String)
    (geoFetch : FetchOutcome HeFengCityLookupResponse) : ToolResult :=
  if cfg.geoUrl = "" then
    textResult "错误：地理位置API基础URL未配置。请管理员使用 --apiUrl 配置。"
  else
    match fetchLocationDetailsByName cfg city_name geoFetch with
    | none =>
        textResult ("无法找到城市 \"" ++ city_name ++
          "\" 的位置信息。请检查城市名称或API配置。")
    | some loc => textResult (formatLocationDetails loc)

/-- The `get-weather` flow of variant 1.2.5 after a successful parse: the
raw location is forwarded directly (no resolution step in this variant). -/
def weatherToolResult (cfg : Config) (rawLocationInput : String) (days : Days)
    (weatherFetch : FetchOutcome WeatherData) : ToolResult :=
  weatherFlowResult rawLocationInput days
    (makeHeFengRequestV125 cfg.apiKey cfg.weatherUrl weatherFetch).1

/-- The body of the 1.2.5 `try` block. -/
def tryBody (cfg : Config) (inp : HandlerInput)
    (geoFetch : FetchOutcome HeFengCityLookupResponse)
    (weatherFetch : FetchOutcome WeatherData) : Except Thrown ToolResult :=
  if inp.toolName = "get_location_id" then
    match inp.locationIdArgs with
    | .zodError errs => .error (.zod errs)
    | .ok city_name => .ok (locationIdFlowResult cfg city_name geoFetch)
  else if inp.toolName = "get-weather" then
    if cfg.weatherUrl = "" then
      .ok (textResult "错误：天气API基础URL未配置。请管理员使用 --apiUrl 配置。")
    else
      match inp.weatherArgs with
      | .zodError errs => .error (.zod errs)
      | .ok (rawLocationInput, days) =>
          .ok (weatherToolResult cfg rawLocationInput days weatherFetch)
  else .error (.unknownTool inp.toolName)

/-- The 1.2.5 call-tool handler: its `catch` rethrows a `ZodError` (hard
fault) and converts every other exception — the `Unknown tool` error
included — to an internal-error text envelope, identically to 1.3.3. -/
def handleCallTool (cfg : Config) (inp : HandlerInput)
    (geoFetch : FetchOutcome HeFengCityLookupResponse)
    (weatherFetch : FetchOutcome WeatherData) : Except String ToolResult :=
  match tryBody cfg inp geoFetch weatherFetch with
  | .ok r => .ok r
  | .error (.zod errs) => .error ("输入参数无效: " ++ zodIssuesText ", " errs)
  | .error (.unknownTool n) =>
      .ok (textResult ("执行工具 \"" ++ n ++ "\" 时发生内部错误: Unknown tool: " ++ n))

end V125


/-! ### Supporting lemmas -/

theorem char_isUpper_toLower (c : Char) : (Char.toLower c).isUpper = false := by
  show (if c.toNat ≥ 65 ∧ c.toNat ≤ 90 then Char.ofNat (c.toNat + 32) else c).isUpper = false
  by_cases h : c.toNat ≥ 65 ∧ c.toNat ≤ 90
  · rw [if_pos h]
    obtain ⟨h1, h2⟩ := h
    set n := c.toNat with hn
    interval_cases n <;> decide
  · rw [if_neg h]
    simp only [Char.isUpper, Bool.and_eq_false_iff]
    rcases Nat.lt_or_ge c.toNat 65 with hlt | hge
    · left
      apply decide_eq_false
      show ¬(65 : UInt32) ≤ c.val
      intro hc
      have h2 : (65 : UInt32).toNat ≤ c.val.toNat := hc
      have h65 : (65 : UInt32).toNat = 65 := rfl
      have hcv : c.val.toNat = c.toNat := rfl
      rw [h65, hcv] at h2
      omega
    · right
      apply decide_eq_false
      show ¬c.val ≤ (90 : UInt32)
      intro hc
      have h2 : c.val.toNat ≤ (90 : UInt32).toNat := hc
      have h90 : (90 : UInt32).toNat = 90 := rfl
      have hcv : c.val.toNat = c.toNat := rfl
      rw [h90, hcv] at h2
      exact h ⟨hge, h2⟩

theorem char_toNat_toLower_of_upper (c : Char)
    (h : c.toNat ≥ 65 ∧ c.toNat ≤ 90) :
    (Char.toLower c).toNat = c.toNat + 32 := by
  show (if c.toNat ≥ 65 ∧ c.toNat ≤ 90 then Char.ofNat (c.toNat + 32) else c).toNat = c.toNat + 32
  rw [if_pos h]
  have hv : Nat.isValidChar (c.toNat + 32) := by
    unfold Nat.isValidChar
    left
    omega
  show (Char.ofNat (c.toNat + 32)).toNat = c.toNat + 32
  unfold Char.ofNat
  rw [dif_pos hv]
  rfl

theorem char_toLower_eq_space_iff (c : Char) :
    Char.toLower c = ' ' ↔ c = ' ' := by
  constructor
  · intro h
    by_cases hu : c.toNat ≥ 65 ∧ c.toNat ≤ 90
    · exfalso
      have h1 := char_toNat_toLower_of_upper c hu
      rw [h] at h1
      have h2 : (' ' : Char).toNat = 32 := rfl
      omega
    · have hid : Char.toLower c = c := by
        show (if c.toNat ≥ 65 ∧ c.toNat ≤ 90 then Char.ofNat (c.toNat + 32) else c) = c
        rw [if_neg hu]
      rw [hid] at h
      exact h
  · intro h
    subst h
    rfl

theorem string_data_join (L : List String) (init : String) :
    (L.foldl (· ++ ·) init).data = init.data ++ (L.map String.data).flatten := by
  induction L generalizing init with
  | nil => simp
  | cons h t ih =>
      simp only [List.foldl_cons, List.map_cons, List.flatten_cons]
      rw [ih, String.data_append, List.append_assoc]

theorem countChar_append (a b : String) (c : Char) :
    countChar (a ++ b) c = countChar a c + countChar b c := by
  simp [countChar, String.data_append, List.count_append]

theorem append_ne_empty_left (a b : String) (ha : a ≠ "") : a ++ b ≠ "" := by
  intro h
  apply ha
  have h2 := congrArg String.data h
  rw [String.data_append] at h2
  have h3 : a.data = [] := (List.append_eq_nil.mp h2).1
  cases a with
  | mk l =>
      simp only [String.data] at h3
      subst h3
      rfl

/-! ### Claims -/

/-- C5: for every forecast selector the dispatcher requests exactly
`/v7/weather/now` for `now` and `/v7/weather/<selector>` for the hourly and
day-count selectors, with the resolved location passed verbatim as the
`location` query parameter — the code-side `weatherRequest` coincides with
the spec-side endpoint table on every selector. -/
theorem c5_dispatch_endpoint_mapping (d : Days) (loc : String) :
    weatherRequest d loc = (specEndpointPath d, [("location", loc)]) := by
  cases d <;> rfl

/-- C7: a request attempted while the API key or the base URL is empty
returns a configuration-error result with code `"500"` immediately, with
zero invocations of `fetch` (so no network I/O), in both request-helper
variants. -/
theorem c7_missing_config_no_network {T : Type} (getCode : T → String)
    (apiKey baseUrl : String) (f : FetchOutcome T)
    (h : apiKey = "" ∨ baseUrl = "") :
    ((makeHeFengRequestV2 getCode apiKey baseUrl f).1 =
        ReqResult.errObj "500" (some "API Key not configured") none ∨
      (makeHeFengRequestV2 getCode apiKey baseUrl f).1 =
        ReqResult.errObj "500" (some "API Base URL not configured") none) ∧
    (makeHeFengRequestV2 getCode apiKey baseUrl f).2 = 0 ∧
    ((makeHeFengRequestV125 apiKey baseUrl f).1 =
        ReqResult.errObj "500" (some "API Key not configured") none ∨
      (makeHeFengRequestV125 apiKey baseUrl f).1 =
        ReqResult.errObj "500" (some "API Base URL not configured") none) ∧
    (makeHeFengRequestV125 apiKey baseUrl f).2 = 0 := by
  by_cases hk : apiKey = ""
  · refine ⟨Or.inl ?_, ?_, Or.inl ?_, ?_⟩ <;>
      simp [makeHeFengRequestV2, makeHeFengRequestV125, hk]
  · have hb : baseUrl = "" := h.resolve_left hk
    refine ⟨Or.inr ?_, ?_, Or.inr ?_, ?_⟩ <;>
      simp [makeHeFengRequestV2, makeHeFengRequestV125, hk, hb]

/-- Witness for C7 at a concrete input: empty key, configured URL. -/
theorem c7_missing_config_no_network_witness :
    ((makeHeFengRequestV2 WeatherData.code "" "https://api.qweather.com"
        (FetchOutcome.jsonOk { code := "200" })).1 =
        ReqResult.errObj "500" (some "API Key not configured") none ∨
      (makeHeFengRequestV2 WeatherData.code "" "https://api.qweather.com"
        (FetchOutcome.jsonOk { code := "200" })).1 =
        ReqResult.errObj "500" (some "API Base URL not configured") none) ∧
    (makeHeFengRequestV2 WeatherData.code "" "https://api.qweather.com"
      (FetchOutcome.jsonOk { code := "200" })).2 = 0 ∧
    ((makeHeFengRequestV125 "" "https://api.qweather.com"
        (FetchOutcome.jsonOk ({ code := "200" } : WeatherData))).1 =
        ReqResult.errObj "500" (some "API Key not configured") none ∨
      (makeHeFengRequestV125 "" "https://api.qweather.com"
        (FetchOutcome.jsonOk ({ code := "200" } : WeatherData))).1 =
        ReqResult.errObj "500" (some "API Base URL not configured") none) ∧
    (makeHeFengRequestV125 "" "https://api.qweather.com"
      (FetchOutcome.jsonOk ({ code := "200" } : WeatherData))).2 = 0 :=
  c7_missing_config_no_network WeatherData.code "" "https://api.qweather.com"
    (FetchOutcome.jsonOk { code := "200" }) (Or.inl rfl)

/-- C4: an HTTP-success response whose body carries a provider-internal code
other than `"200"` is classified as a provider business error and produces
the failure text carrying that code — never a weather rendering: the
1.3.3/1.6.2 request helper intercepts it as an error object carrying the
code, the 1.2.5 weather flow and the 1.6.2 weather flow both return the
failure envelope quoting the code. -/
theorem c4_provider_business_error (cfg : Config) (wd : WeatherData)
    (loc raw : String) (days : Days)
    (hk : cfg.apiKey ≠ "") (hu : cfg.weatherUrl ≠ "")
    (hc : wd.code ≠ "200") (hc0 : wd.code ≠ "") :
    (makeHeFengRequestV2 WeatherData.code cfg.apiKey cfg.weatherUrl
        (FetchOutcome.jsonOk wd)).1 =
      ReqResult.errObj wd.code
        (some ("HeFeng API business error. Code: " ++ wd.code)) none
    ∧ V125.weatherFlowResult loc days (ReqResult.data wd) =
      textResult ("无法获取 " ++ loc ++ " 的天气数据 (API Code: " ++ wd.code ++
        "). " ++ "未能获取数据，请检查地点名称或API配置。")
    ∧ V162.weatherFlowResult cfg raw days (FetchOutcome.jsonOk wd) =
      textResult ("无法获取 " ++ raw ++ " 的天气数据 (API Code/Status: " ++
        wd.code ++ "). " ++ ("HeFeng API business error. Code: " ++ wd.code) ++
        (" (输入 \"" ++ raw ++ "\" 被直接使用查询)")) := by
  have hmsg : ("HeFeng API business error. Code: " ++ wd.code) ≠ "" :=
    append_ne_empty_left _ _ (by decide)
  refine ⟨?_, ?_, ?_⟩
  · simp [makeHeFengRequestV2, hk, hu, truthy, hc, hc0]
  · simp [V125.weatherFlowResult, ReqResult.codeOf, hc, hc0, jsOr]
  · simp [V162.weatherFlowResult, makeHeFengRequestV2, hk, hu, truthy, hc,
      hc0, ReqResult.codeOf, jsOr, hmsg]

/-- Witness for C4: the spec scenario — HTTP 200 with `code:"400"` in the
body. -/
theorem c4_provider_business_error_witness :
    (makeHeFengRequestV2 WeatherData.code "k" "https://api.qweather.com"
        (FetchOutcome.jsonOk ({ code := "400" } : WeatherData))).1 =
      ReqResult.errObj "400"
        (some ("HeFeng API business error. Code: " ++ "400")) none
    ∧ V125.weatherFlowResult "101010100" Days.now
        (ReqResult.data ({ code := "400" } : WeatherData)) =
      textResult ("无法获取 " ++ "101010100" ++ " 的天气数据 (API Code: " ++
        "400" ++ "). " ++ "未能获取数据，请检查地点名称或API配置。")
    ∧ V162.weatherFlowResult ⟨"k", "https://api.qweather.com", "https://geo"⟩
        "101010100" Days.now
        (FetchOutcome.jsonOk ({ code := "400" } : WeatherData)) =
      textResult ("无法获取 " ++ "101010100" ++ " 的天气数据 (API Code/Status: " ++
        "400" ++ "). " ++ ("HeFeng API business error. Code: " ++ "400") ++
        (" (输入 \"" ++ "101010100" ++ "\" 被直接使用查询)")) :=
  c4_provider_business_error ⟨"k", "https://api.qweather.com", "https://geo"⟩
    { code := "400" } "101010100" "101010100" Days.now
    (by decide) (by decide) (by decide) (by decide)

/-- C3 counterexample: in variant 1.2.5 (`src/src/index.ts`) the claim
fails.  With selector `now` and a success envelope whose only payload is a
`daily` array, the handler renders the daily payload (under a `now预报`
header) instead of the malformed-data message: the `daily` branch of the
`else if` chain is not guarded by the selector. -/
theorem c3_shape_agreement_counterexample :
    V125.formatWeatherBySelector "101010100" Days.now
        { code := "200", daily := some [specimenDay] } =
      textResult (formatDaily "101010100" Days.now [specimenDay])
    ∧ V125.formatWeatherBySelector "101010100" Days.now
        { code := "200", daily := some [specimenDay] } ≠
      textResult ("获取 " ++ "101010100" ++
        " 的天气数据格式不正确或不完整。 (Code: " ++ "200" ++ ")") :=
  ⟨rfl, by decide⟩

/-- C3 (amended): the selector/shape agreement holds for the shape branching
of variants 1.3.3 and 1.6.2 — the output is invariant under erasing every
payload field other than the selector-matching one, and an absent or empty
matching field yields the malformed/unavailable-data message; in variant
1.2.5 the `now` and hourly branches are selector-guarded but the daily
branch is not, so a response carrying a `daily` array is rendered as a daily
block under any selector whose matching field is absent. -/
theorem c3_selector_shape_agreement (loc : String) (days : Days)
    (wd : WeatherData) :
    formatWeatherBySelectorV2 loc days wd =
      formatWeatherBySelectorV2 loc days (restrictToSelector days wd)
    ∧ (days = Days.now → wd.now = none →
        formatWeatherBySelectorV2 loc days wd =
          textResult ("获取 " ++ loc ++
            " 的实时天气数据时，数据结构不完整或无效。 (Code: " ++ wd.code ++ ")"))
    ∧ (isHourlySelector days = true →
        (wd.hourly = none ∨ wd.hourly = some []) →
        formatWeatherBySelectorV2 loc days wd =
          textResult ("无法获取 " ++ loc ++
            " 的逐小时预报，数据不完整或该地区无此项数据。 (Code: " ++ wd.code ++ ")"))
    ∧ (days ≠ Days.now → isHourlySelector days = false →
        (wd.daily = none ∨ wd.daily = some []) →
        formatWeatherBySelectorV2 loc days wd =
          textResult ("无法获取 " ++ loc ++ " 的 " ++ days.toStr ++
            " 天气预报，数据不完整或该地区无此项数据。 (Code: " ++ wd.code ++ ")")) := by
  refine ⟨?_, ?_, ?_, ?_⟩
  · cases days <;> cases wd <;>
      simp [formatWeatherBySelectorV2, restrictToSelector, isHourlySelector]
  · intro h1 h2
    subst h1
    simp [formatWeatherBySelectorV2, h2]
  · intro h1 h2
    cases days <;> simp [isHourlySelector] at h1 <;>
      rcases h2 with h2 | h2 <;>
        simp [formatWeatherBySelectorV2, isHourlySelector, h2]
  · intro h1 h2 h3
    cases days <;> simp [isHourlySelector] at h2 <;>
      first
        | exact absurd rfl h1
        | (rcases h3 with h3 | h3 <;>
            simp [formatWeatherBySelectorV2, isHourlySelector, h3, Days.toStr])

/-- Witness for C3 at a concrete input: selector `now` with the `now` record
absent yields the malformed-data message. -/
theorem c3_selector_shape_agreement_witness :
    formatWeatherBySelectorV2 "101010100" Days.now { code := "200" } =
      textResult ("获取 " ++ "101010100" ++
        " 的实时天气数据时，数据结构不完整或无效。 (Code: " ++ "200" ++ ")") :=
  (c3_selector_shape_agreement "101010100" Days.now { code := "200" }).2.1 rfl rfl

/-- C1 counterexample: the claim fails in both directions on variant 1.3.3.
At tool name `"frobnicate"` the `Unknown tool` error is thrown inside the
`try` block, caught by the handler's own `catch`, and returned as a normal
internal-error text envelope — no hard fault propagates; conversely, a
validation (Zod) error on the known tool `get-weather` is rethrown by the
`catch` and does propagate as a hard fault. -/
theorem c1_router_counterexample :
    V133.handleCallTool
        ⟨"key", "https://api.qweather.com", "https://geo.qweather.com"⟩
        ⟨"frobnicate", ParseResult.ok "beijing",
          ParseResult.ok ("beijing", Days.now)⟩
        (FetchOutcome.jsonOk ⟨"200", some []⟩)
        (FetchOutcome.jsonOk { code := "200" }) [] =
      Except.ok (textResult
        "执行工具 \"frobnicate\" 时发生内部错误: Unknown tool: frobnicate")
    ∧ isHardFault (V133.handleCallTool
        ⟨"key", "https://api.qweather.com", "https://geo.qweather.com"⟩
        ⟨"frobnicate", ParseResult.ok "beijing",
          ParseResult.ok ("beijing", Days.now)⟩
        (FetchOutcome.jsonOk ⟨"200", some []⟩)
        (FetchOutcome.jsonOk { code := "200" }) []) = false
    ∧ isHardFault (V133.handleCallTool
        ⟨"key", "https://api.qweather.com", "https://geo.qweather.com"⟩
        ⟨"get-weather", ParseResult.ok "beijing",
          ParseResult.zodError [(["location"], "Required")]⟩
        (FetchOutcome.jsonOk ⟨"200", some []⟩)
        (FetchOutcome.jsonOk { code := "200" }) []) = true :=
  ⟨rfl, rfl, rfl⟩

/-- C1 (amended): in variants 1.2.5 and 1.3.3 a hard (thrown) fault
propagates from the call-tool handler exactly when a recognized tool's
argument validation raises a `ZodError` (for `get-weather` only when the
weather base URL is configured, since that check precedes the parse); an
unrecognized tool name is caught and answered with an internal-error text
envelope.  Variant 1.6.2 never propagates any fault (its `catch` also
converts `ZodError` to text). -/
theorem c1_hard_fault_characterization (cfg : Config) (inp : HandlerInput)
    (geoFetch : FetchOutcome HeFengCityLookupResponse)
    (weatherFetch : FetchOutcome WeatherData)
    (pinyinArr : List (List String)) :
    (isHardFault
        (V133.handleCallTool cfg inp geoFetch weatherFetch pinyinArr) = true ↔
      ((inp.toolName = "get_location_id" ∧
          inp.locationIdArgs.isZodError = true) ∨
        (inp.toolName = "get-weather" ∧ cfg.weatherUrl ≠ "" ∧
          inp.weatherArgs.isZodError = true)))
    ∧ (isHardFault (V125.handleCallTool cfg inp geoFetch weatherFetch) = true ↔
      ((inp.toolName = "get_location_id" ∧
          inp.locationIdArgs.isZodError = true) ∨
        (inp.toolName = "get-weather" ∧ cfg.weatherUrl ≠ "" ∧
          inp.weatherArgs.isZodError = true)))
    ∧ isHardFault (V162.handleCallTool cfg inp geoFetch weatherFetch) = false := by
  obtain ⟨n, la, wa⟩ := inp
  refine ⟨?_, ?_, ?_⟩
  · by_cases h1 : n = "get_location_id"
    · subst h1
      cases la <;>
        simp [V133.handleCallTool, V133.tryBody, isHardFault,
          ParseResult.isZodError]
    · by_cases h2 : n = "get-weather"
      · subst h2
        by_cases h3 : cfg.weatherUrl = ""
        · cases wa <;>
            simp [V133.handleCallTool, V133.tryBody, isHardFault,
              ParseResult.isZodError, h3]
        · cases wa <;>
            simp [V133.handleCallTool, V133.tryBody, isHardFault,
              ParseResult.isZodError, h3]
      · simp [V133.handleCallTool, V133.tryBody, isHardFault, h1, h2]
  · by_cases h1 : n = "get_location_id"
    · subst h1
      cases la <;>
        simp [V125.handleCallTool, V125.tryBody, isHardFault,
          ParseResult.isZodError]
    · by_cases h2 : n = "get-weather"
      · subst h2
        by_cases h3 : cfg.weatherUrl = ""
        · cases wa <;>
            simp [V125.handleCallTool, V125.tryBody, isHardFault,
              ParseResult.isZodError, h3]
        · cases wa <;>
            simp [V125.handleCallTool, V125.tryBody, isHardFault,
              ParseResult.isZodError, h3]
      · simp [V125.handleCallTool, V125.tryBody, isHardFault, h1, h2]
  · by_cases h1 : n = "get_location_id"
    · subst h1
      cases la <;>
        simp [V162.handleCallTool, V162.tryBody, isHardFault]
    · by_cases h2 : n = "get_weather"
      · subst h2
        by_cases h3 : cfg.weatherUrl = ""
        · cases wa <;>
            simp [V162.handleCallTool, V162.tryBody, isHardFault, h3]
        · cases wa <;>
            simp [V162.handleCallTool, V162.tryBody, isHardFault, h3]
      · simp [V162.handleCallTool, V162.tryBody, isHardFault, h1, h2]

/-- C2: in variant 1.3.3, when the pinyin-converted Chinese token resolves
to no usable candidate (`fetchLocationDetailsByName` returns `null`, which
is what it does on zero candidates, a lookup business error, or a transport
failure), the weather flow falls back to issuing the forecast request with
the pinyin token verbatim as the `location` parameter; in the same
situation the `get_location_id` flow returns the single not-found failure
text with no fallback. -/
theorem c2_pinyin_fallback_asymmetry (cfg : Config) (raw city : String)
    (days : Days) (la : ParseResult String)
    (pinyinArr : List (List String))
    (geoFetch : FetchOutcome HeFengCityLookupResponse)
    (hch : containsChinese raw = true)
    (hw : cfg.weatherUrl ≠ "") (hg : cfg.geoUrl ≠ "")
    (hfail : fetchLocationDetailsByName cfg (convertToPinyin pinyinArr)
        geoFetch = none)
    (hfail2 : fetchLocationDetailsByName cfg city geoFetch = none) :
    V133.weatherQueryLocation raw pinyinArr none = convertToPinyin pinyinArr
    ∧ V133.issuedWeatherRequest cfg
        ⟨"get-weather", la, ParseResult.ok (raw, days)⟩ geoFetch pinyinArr =
      some (weatherRequest days (convertToPinyin pinyinArr))
    ∧ V133.locationIdFlowResult cfg city geoFetch =
      textResult ("无法找到城市 \"" ++ city ++
        "\" 的位置信息。请检查输入、API配置或查看服务器日志获取更多详情。") := by
  refine ⟨?_, ?_, ?_⟩
  · simp [V133.weatherQueryLocation, hch]
  · simp [V133.issuedWeatherRequest, hw, hch, hfail, V133.weatherQueryLocation]
  · simp [V133.locationIdFlowResult, hg, hfail2]

/-- Witness for C2: the spec's zero-candidate scenario — the geocoding
lookup answers `{code:"200", location:[]}` for the pinyin of 北京. -/
theorem c2_pinyin_fallback_asymmetry_witness :
    V133.weatherQueryLocation "北京" [["bei"], ["jing"]] none =
      convertToPinyin [["bei"], ["jing"]]
    ∧ V133.issuedWeatherRequest ⟨"k", "https://api.qweather.com", "https://geo.qweather.com"⟩
        ⟨"get-weather", ParseResult.ok "北京",
          ParseResult.ok ("北京", Days.h24)⟩
        (FetchOutcome.jsonOk ⟨"200", some []⟩) [["bei"], ["jing"]] =
      some (weatherRequest Days.h24 (convertToPinyin [["bei"], ["jing"]]))
    ∧ V133.locationIdFlowResult
        ⟨"k", "https://api.qweather.com", "https://geo.qweather.com"⟩ "北京"
        (FetchOutcome.jsonOk ⟨"200", some []⟩) =
      textResult ("无法找到城市 \"" ++ "北京" ++
        "\" 的位置信息。请检查输入、API配置或查看服务器日志获取更多详情。") :=
  c2_pinyin_fallback_asymmetry
    ⟨"k", "https://api.qweather.com", "https://geo.qweather.com"⟩ "北京" "北京"
    Days.h24 (ParseResult.ok "北京") [["bei"], ["jing"]]
    (FetchOutcome.jsonOk ⟨"200", some []⟩)
    (by decide) (by decide) (by decide) (by decide) (by decide)

/-- C10: an absent hourly `pop` and absent daily `sunrise`/`sunset` are
rendered as the literal `N/A` in their positions, the record renders exactly
as if `"N/A"` were the value, and a response whose records lack the optional
fields is still rendered as a success block, never as a failure message. -/
theorem c10_missing_optional_fields_render_na
    (hour : HeFengHourlyObject) (day : HeFengDailyObject)
    (loc code : String) (hrest : List HeFengHourlyObject)
    (drest : List HeFengDailyObject) :
    formatHour { hour with pop := none } =
      "时间: " ++ hour.fxTime ++ "\n" ++
      "  天气: " ++ hour.text ++ ", 温度: " ++ hour.temp ++ "°C\n" ++
      "  湿度: " ++ hour.humidity ++ "%, 降水概率: " ++ "N/A" ++ "%\n" ++
      "  风向: " ++ hour.windDir ++ " " ++ hour.windScale ++ "级\n" ++
      "------------------------"
    ∧ formatHour { hour with pop := none } =
      formatHour { hour with pop := some "N/A" }
    ∧ formatDay { day with sunrise := none, sunset := none } =
      "日期: " ++ day.fxDate ++ " (日出: " ++ "N/A" ++ ", 日落: " ++ "N/A" ++
        ")\n" ++
      "  白天天气: " ++ day.textDay ++ ", 夜间天气: " ++ day.textNight ++ "\n" ++
      "  最高温度: " ++ day.tempMax ++ "°C, 最低温度: " ++ day.tempMin ++ "°C\n" ++
      "  相对湿度: " ++ day.humidity ++ "%, 降水量: " ++ day.precip ++ "mm\n" ++
      "  白天风向: " ++ day.windDirDay ++ " " ++ day.windScaleDay ++ "级\n" ++
      "  夜间风向: " ++ day.windDirNight ++ " " ++ day.windScaleNight ++ "级\n" ++
      "  紫外线指数: " ++ day.uvIndex ++ "\n" ++
      "------------------------"
    ∧ formatWeatherBySelectorV2 loc Days.h24
        { code := code, hourly := some ({ hour with pop := none } :: hrest) } =
      textResult (formatHourly loc Days.h24 ({ hour with pop := none } :: hrest))
    ∧ formatWeatherBySelectorV2 loc Days.d3
        { code := code,
          daily := some ({ day with sunrise := none, sunset := none } :: drest) } =
      textResult (formatDaily loc Days.d3
        ({ day with sunrise := none, sunset := none } :: drest)) := by
  refine ⟨?_, ?_, ?_, ?_, ?_⟩
  · simp [formatHour, jsOr]
  · simp [formatHour, jsOr]
  · simp [formatDay, jsOr]
  · simp [formatWeatherBySelectorV2, isHourlySelector]
  · simp [formatWeatherBySelectorV2, isHourlySelector]

/-- C8: a successful instant forecast with the instant record present
renders, after the location line, the ten labeled field lines in the fixed
order observation time, condition text, temperature, feels-like, wind
direction, wind scale, humidity, precipitation, pressure, visibility —
newline-separated, and (when no field value itself contains a newline)
nothing else: the block contains exactly ten newlines, i.e. eleven lines
with the location named in the first. -/
theorem c8_now_block_fixed_lines (loc cd : String) (n : HeFengNowObject)
    (h : countChar loc '\n' = 0 ∧ countChar n.obsTime '\n' = 0 ∧
      countChar n.text '\n' = 0 ∧ countChar n.temp '\n' = 0 ∧
      countChar n.feelsLike '\n' = 0 ∧ countChar n.windDir '\n' = 0 ∧
      countChar n.windScale '\n' = 0 ∧ countChar n.humidity '\n' = 0 ∧
      countChar n.precip '\n' = 0 ∧ countChar n.pressure '\n' = 0 ∧
      countChar n.vis '\n' = 0) :
    formatWeatherBySelectorV2 loc Days.now { code := cd, now := some n } =
      textResult (formatNow loc n)
    ∧ formatNow loc n = String.intercalate "\n"
        ["地点: " ++ loc,
         "观测时间: " ++ n.obsTime,
         "天气: " ++ n.text,
         "温度: " ++ n.temp ++ "°C",
         "体感温度: " ++ n.feelsLike ++ "°C",
         "风向: " ++ n.windDir,
         "风力: " ++ n.windScale ++ "级",
         "相对湿度: " ++ n.humidity ++ "%",
         "当前小时累计降水量: " ++ n.precip ++ "mm",
         "大气压强: " ++ n.pressure ++ "hPa",
         "能见度: " ++ n.vis ++ "公里"]
    ∧ countChar (formatNow loc n) '\n' = 10 := by
  obtain ⟨h1, h2, h3, h4, h5, h6, h7, h8, h9, h10, h11⟩ := h
  refine ⟨?_, ?_, ?_⟩
  · simp [formatWeatherBySelectorV2]
  · apply String.ext
    simp only [formatNow, String.intercalate, String.intercalate.go,
      String.data_append, List.append_assoc, List.cons_append, List.nil_append]
  · simp only [formatNow, countChar_append, h1, h2, h3, h4, h5, h6, h7, h8,
      h9, h10, h11]
    decide

/-- Witness for C8: the specification's instant-success scenario record. -/
theorem c8_now_block_fixed_lines_witness :
    formatWeatherBySelectorV2 "101010100" Days.now
        { code := "200", now := some scenarioNowRecord } =
      textResult (formatNow "101010100" scenarioNowRecord)
    ∧ formatNow "101010100" scenarioNowRecord = String.intercalate "\n"
        ["地点: " ++ "101010100",
         "观测时间: " ++ scenarioNowRecord.obsTime,
         "天气: " ++ scenarioNowRecord.text,
         "温度: " ++ scenarioNowRecord.temp ++ "°C",
         "体感温度: " ++ scenarioNowRecord.feelsLike ++ "°C",
         "风向: " ++ scenarioNowRecord.windDir,
         "风力: " ++ scenarioNowRecord.windScale ++ "级",
         "相对湿度: " ++ scenarioNowRecord.humidity ++ "%",
         "当前小时累计降水量: " ++ scenarioNowRecord.precip ++ "mm",
         "大气压强: " ++ scenarioNowRecord.pressure ++ "hPa",
         "能见度: " ++ scenarioNowRecord.vis ++ "公里"]
    ∧ countChar (formatNow "101010100" scenarioNowRecord) '\n' = 10 :=
  c8_now_block_fixed_lines "101010100" "200" scenarioNowRecord
    (by refine ⟨?_, ?_, ?_, ?_, ?_, ?_, ?_, ?_, ?_, ?_, ?_⟩ <;> decide)

/-- C9: the code contradicts the claim (and the stated security intent,
which variant 1.6.2 implements with an explicit "not logged for security"
comment): at startup with `--apiKey=SECRET123`, variants 1.2.5 and 1.3.3
write a log line that contains the API key itself; variant 1.6.2 logs the
same event without the key value. -/
theorem c9_api_key_logged_at_startup :
    startupApiKeyLogsV125 ["node", "index.js", "--apiKey=SECRET123"] =
      ["使用命令行参数中的API密钥: " ++ "SECRET123"]
    ∧ startupApiKeyLogsV162 ["node", "index.js", "--apiKey=SECRET123"] =
      ["使用命令行参数中的API密钥"] :=
  ⟨by decide, by decide⟩

/-- C6 counterexample: the claim fails for non-Latin tokens that contain a
space.  The `pinyin` library returns characters it cannot convert — spaces
included — unchanged as their own single-reading group, so for the token
`"北 京"` (which `containsChinese` routes through transliteration) it
returns `[["bei"], [" "], ["jing"]]`, and `convertToPinyin` then produces
`"bei jing"`, which contains a space character. -/
theorem c6_transliteration_counterexample :
    containsChinese "北 京" = true
    ∧ convertToPinyin [["bei"], [" "], ["jing"]] = "bei jing"
    ∧ ' ' ∈ (convertToPinyin [["bei"], [" "], ["jing"]]).data :=
  ⟨by decide, by decide, by decide⟩

/-- C6 (amended): for every reading table the transliteration output is
entirely lowercase (no uppercase ASCII letter survives `toLowerCase`), and
— since `join('')` itself introduces no separator — the output contains a
space exactly when some selected first reading contains one; in particular
it is space-free whenever no first reading contains a space. -/
theorem c6_transliteration_lowercase_spaces (arr : List (List String)) :
    (∀ c ∈ (convertToPinyin arr).data, c.isUpper = false)
    ∧ (' ' ∈ (convertToPinyin arr).data ↔
        ∃ g ∈ arr, ' ' ∈ (g.headD "").data) := by
  have hdata : (convertToPinyin arr).data =
      (((arr.map (fun g => g.headD "")).map String.data).flatten).map
        Char.toLower := by
    have hj := string_data_join (arr.map (fun g => g.headD "")) ""
    simp only [convertToPinyin, jsToLowerCase, String.join]
    rw [hj]
    rfl
  constructor
  · intro c hc
    rw [hdata] at hc
    obtain ⟨a, _, rfl⟩ := List.mem_map.mp hc
    exact char_isUpper_toLower a
  · rw [hdata]
    constructor
    · intro hmem
      obtain ⟨a, ha, hla⟩ := List.mem_map.mp hmem
      have ha2 : a = ' ' := (char_toLower_eq_space_iff a).mp hla
      subst ha2
      obtain ⟨l, hl, hal⟩ := List.mem_flatten.mp ha
      obtain ⟨g0, hg0, rfl⟩ := List.mem_map.mp hl
      obtain ⟨g, hg, rfl⟩ := List.mem_map.mp hg0
      exact ⟨g, hg, hal⟩
    · intro hex
      obtain ⟨g, hg, hsp⟩ := hex
      apply List.mem_map.mpr
      refine ⟨' ', ?_, (char_toLower_eq_space_iff ' ').mpr rfl⟩
      apply List.mem_flatten.mpr
      exact ⟨(g.headD "").data,
        List.mem_map.mpr ⟨g.headD "",
          List.mem_map.mpr ⟨g, hg, rfl⟩, rfl⟩, hsp⟩

/-- Witness for C6 at a concrete reading table: the bound-variable parts of
the statement discharged at `[["bei"], [" "], ["jing"]]`. -/
theorem c6_transliteration_lowercase_spaces_witness :
    ' ' ∈ (convertToPinyin [["bei"], [" "], ["jing"]]).data :=
  (c6_transliteration_lowercase_spaces [["bei"], [" "], ["jing"]]).2.mpr
    ⟨[" "], by decide, by decide⟩
